import Mathlib

/-!
Verification of phi/vectordb/neo4j (Neo4jVectorDb) against its design spec.

The Python source is shallowly embedded: enums become inductive types, the
query-building helpers become string functions transcribed from the f-strings,
and the backend (Neo4j/Cypher/GDS, an external collaborator of the engine) is
modelled by explicit state passing with its documented semantics noted at each
definition. Python exceptions become an error inductive carried in Except.
-/

namespace PhiNeo4j

/-- SearchType as used by Neo4jVectorDb.search (neo4j.py lines 181-188):
vector, keyword and hybrid. -/
inductive SearchType
| vector
| keyword
| hybrid
deriving DecidableEq

/-- Neo4jDistance (distance.py): exactly the members cosine, euclidean, manhattan. -/
inductive Neo4jDistance
| cosine
| euclidean
| manhattan
deriving DecidableEq

/-- The index variants of index.py: Neo4jNativeIndex and HNSW. The HNSW tuning
fields (m, ef_construction, max_connections) play no role in the claims. -/
inductive VectorIndexKind
| native
| hnsw
deriving DecidableEq

/-- Python exceptions raised by the code. The attributeError payload is the
missing attribute name; valueError and runtimeError carry the message from the
raise statement; clientError stands for errors surfaced by the Neo4j backend.
The last two constructors are modelled from the spec only: the exception types
EmbeddingUnavailableError and InvalidArgumentError named by the spec do not
occur anywhere in the code, so they are distinct constructors that the code
model can never produce. -/
inductive PyError
| attributeError (attr : String)
| valueError (msg : String)
| runtimeError (msg : String)
| clientError (msg : String)
| embeddingUnavailableError
| invalidArgumentError
deriving DecidableEq

/-- The single-quote character, kept out of string literals. -/
def squote : String := String.singleton (Char.ofNat 39)

/-- Transcription of _build_filter_conditions (neo4j.py lines 331-340):
an empty or absent mapping yields the string 1=1, otherwise the conditions
d.key = (quoted value) joined by AND, with the value written into the query
text by f-string interpolation. Filters are an association list of the dict
items, values already str()-converted. -/
def build_filter_conditions (filters : List (String × String)) : String :=
  if filters.isEmpty then "1=1"
  else String.intercalate " AND "
    (filters.map (fun kv => "d." ++ kv.1 ++ " = " ++ squote ++ kv.2 ++ squote))

/-- Transcription of _distance_function (neo4j.py lines 318-329). The three
enum members map to the three gds.similarity functions; the trailing raise is
unreachable because Neo4jDistance has exactly these members. -/
def distance_function : Neo4jDistance → String
| Neo4jDistance.cosine => "gds.similarity.cosine"
| Neo4jDistance.euclidean => "gds.similarity.euclidean"
| Neo4jDistance.manhattan => "gds.similarity.manhattan"

/-- The instance attribute names assigned via self in __init__ (neo4j.py lines
40-46). Line 47 reads: vector_index: Union[Neo4jNativeIndex, HNSW] =
vector_index — an annotated assignment to a LOCAL name, not to
self.vector_index; and no statement anywhere assigns self.label or
self.property. -/
def initAssignedAttrs : List String :=
  ["driver", "database", "embedder", "search_type", "distance",
   "schema_version", "auto_upgrade_schema"]

/-- A Document node as created by insert/upsert (neo4j.py lines 139-148):
properties id, name, content, content_hash, embedding. Embeddings are modelled
as rational vectors. -/
structure Doc where
  id : String
  name : String
  content : String
  content_hash : String
  embedding : List ℚ
deriving DecidableEq

/-- String-valued property lookup on a Document node, for the Cypher semantics
of the generated filter conditions. -/
def propStr (d : Doc) : String → Option String
| "id" => some d.id
| "name" => some d.name
| "content" => some d.content
| "content_hash" => some d.content_hash
| _ => none

/-- Cypher semantics of the condition string built by build_filter_conditions:
the conjunction of the comparisons d.key = value (comparison against a missing
property is null in Cypher, never true), and the empty conjunction 1=1 holds
for every row. -/
def filterPredSem (filters : List (String × String)) (d : Doc) : Bool :=
  filters.all (fun kv => propStr d kv.1 == some kv.2)

/-- Substring occurrence on character lists, for the Cypher CONTAINS operator. -/
def subOccurs (p : List Char) : List Char → Bool
| [] => p.isEmpty
| c :: t => p.isPrefixOf (c :: t) || subOccurs p t

/-- Cypher CONTAINS: the needle occurs as a contiguous substring of the text. -/
def strContainsStr (s pat : String) : Bool :=
  subOccurs pat.data s.data

/-- State of the backend graph relevant to the claims: whether the uniqueness
constraint on Document.id exists, whether the structural index exists, and the
Document rows in creation order. -/
structure GraphState where
  constraintOnId : Bool
  indexExists : Bool
  docs : List Doc
deriving DecidableEq

/-- Backend semantics of the DDL at neo4j.py lines 56-58, modelled from Neo4j:
CREATE CONSTRAINT ON (d:Document) ASSERT d.id IS UNIQUE is the legacy form
without IF NOT EXISTS, and raises (EquivalentSchemaRuleAlreadyExists) when an
equivalent constraint already exists; otherwise it installs the constraint. -/
def runCreateConstraint (st : GraphState) : Except PyError GraphState :=
  if st.constraintOnId then
    Except.error (PyError.clientError "An equivalent constraint already exists")
  else
    Except.ok { st with constraintOnId := true }

/-- Backend semantics of the index-creation statements built at neo4j.py lines
65-74, modelled from Neo4j: neither gds.index.vector.create nor the legacy
CREATE INDEX ON :Label(prop) has an IF NOT EXISTS form, so re-creation of an
existing index raises; otherwise the index is installed. -/
def runCreateIndexDDL (st : GraphState) : Except PyError GraphState :=
  if st.indexExists then
    Except.error (PyError.clientError "An equivalent index already exists")
  else
    Except.ok { st with indexExists := true }

/-- create_index (neo4j.py lines 62-79), parametrized by the results of the
attribute reads self.vector_index (line 63), self.label and self.property
(lines 67-74): none means the attribute is absent from the instance and the
read raises AttributeError. Instances built by __init__ assign only
initAssignedAttrs, so on every real instance all three reads give none and the
first read already raises. With all attributes granted, either branch builds a
creation statement over label/property and runs it. -/
def createIndexOp (vectorIndexAttr : Option VectorIndexKind)
    (labelAttr propertyAttr : Option String) (st : GraphState) :
    Except PyError GraphState :=
  match vectorIndexAttr, labelAttr, propertyAttr with
  | none, _, _ => Except.error (PyError.attributeError "vector_index")
  | some _, none, _ => Except.error (PyError.attributeError "label")
  | some _, some _, none => Except.error (PyError.attributeError "property")
  | some _, some _, some _ => runCreateIndexDDL st

/-- create (neo4j.py lines 51-60): run the constraint DDL, then call
self.create_index(). Same attribute-read parameters as createIndexOp. -/
def createOp (vectorIndexAttr : Option VectorIndexKind)
    (labelAttr propertyAttr : Option String) (st : GraphState) :
    Except PyError GraphState :=
  (runCreateConstraint st).bind (createIndexOp vectorIndexAttr labelAttr propertyAttr)

/-- drop_index (neo4j.py lines 190-201), with the same attribute-read
parameters: the read of self.vector_index at line 191 comes first, then label
and property inside the statement text; granted all three, the drop statement
removes the structural index. -/
def dropIndexOp (vectorIndexAttr : Option VectorIndexKind)
    (labelAttr propertyAttr : Option String) (st : GraphState) :
    Except PyError GraphState :=
  match vectorIndexAttr, labelAttr, propertyAttr with
  | none, _, _ => Except.error (PyError.attributeError "vector_index")
  | some _, none, _ => Except.error (PyError.attributeError "label")
  | some _, some _, none => Except.error (PyError.attributeError "property")
  | some _, some _, some _ => Except.ok { st with indexExists := false }

/-- Backend semantics of one CREATE statement of insert (neo4j.py lines
139-148), modelled from Neo4j: CREATE always makes a fresh node; if the
uniqueness constraint on Document.id is active and a node with this id already
exists, the write raises a constraint-violation client error instead. -/
def createDocNode (st : GraphState) (d : Doc) : Except PyError GraphState :=
  if st.constraintOnId && st.docs.any (fun e => e.id = d.id) then
    Except.error (PyError.clientError "Node already exists with id")
  else
    Except.ok { st with docs := st.docs ++ [d] }

/-- insert (neo4j.py lines 129-148): one CREATE per document, in order. Each
session.run auto-commits, so on the error-free paths used below the fold is
exact. -/
def insertOp (st : GraphState) (documents : List Doc) : Except PyError GraphState :=
  documents.foldlM createDocNode st

/-- Backend semantics of one MERGE ... SET statement of upsert (neo4j.py lines
160-167), modelled from Cypher: MERGE on the id pattern binds every existing
node with that id and SET rewrites its properties; if none exists, a new node
is created. -/
def mergeSetDoc (st : GraphState) (d : Doc) : GraphState :=
  if st.docs.any (fun e => e.id = d.id) then
    { st with docs := st.docs.map (fun e =>
        if e.id = d.id then
          { e with name := d.name, content := d.content,
                   content_hash := d.content_hash, embedding := d.embedding }
        else e) }
  else
    { st with docs := st.docs ++ [d] }

/-- upsert (neo4j.py lines 150-167): one MERGE ... SET per document, in order. -/
def upsertOp (st : GraphState) (documents : List Doc) : GraphState :=
  documents.foldl mergeSetDoc st

/-- A parameter value bound on a backend call via session.run keyword
arguments. -/
inductive ParamVal
| str (s : String)
| int (i : Int)
| vec (v : List ℚ)
deriving DecidableEq

/-- One backend call: the query text handed to session.run together with the
bound parameters, in keyword order. -/
structure BackendCall where
  text : String
  params : List (String × ParamVal)
deriving DecidableEq

/-- The configuration attributes of an instance that the search paths read. -/
structure DbConfig where
  embedder : Option (String → List ℚ)
  search_type : SearchType
  distance : Neo4jDistance

/-- The Cypher text built by _keyword_search (neo4j.py lines 283-288),
transcribed from the f-string with its indentation; the filter conditions are
interpolated into the text, while query and limit are bound parameters. -/
def keywordCypher (filters : List (String × String)) : String :=
  "\n        MATCH (d:Document)\n        WHERE d.content CONTAINS $query AND "
    ++ build_filter_conditions filters
    ++ "\n        RETURN d\n        LIMIT $limit\n        "

/-- The Cypher text built by _hybrid_search (neo4j.py lines 303-312),
transcribed from the f-string: filter conditions and the distance-function name
are interpolated; query_embedding, query and limit are bound parameters. -/
def hybridCypher (dist : Neo4jDistance) (filters : List (String × String)) : String :=
  "\n        MATCH (d:Document)\n        WHERE "
    ++ build_filter_conditions filters
    ++ "\n        WITH d, \n             "
    ++ distance_function dist
    ++ "(d.embedding, $query_embedding) AS vector_distance,\n             CASE WHEN d.content CONTAINS $query THEN 0 ELSE 1 END AS keyword_match\n        ORDER BY keyword_match, vector_distance\n        LIMIT $limit\n        RETURN d\n        "

/-- The Cypher text of the native fallback branch of _vector_search (neo4j.py
lines 266-273), transcribed from the f-string, parametrized by the values the
label and property attribute reads would give. -/
def vectorNativeCypher (label prop : String) (dist : Neo4jDistance)
    (filters : List (String × String)) : String :=
  "\n            MATCH (d:" ++ label ++ ")\n        WHERE "
    ++ build_filter_conditions filters
    ++ "\n            WITH d, " ++ distance_function dist
    ++ "(d." ++ prop
    ++ ", $query_embedding) AS distance\n            ORDER BY distance\n            LIMIT $limit\n            RETURN d, distance AS score\n            "

/-- Trace of _vector_search (neo4j.py lines 249-277) on an instance built by
__init__, as the pair (backend calls issued, exception raised if any). Line
250 reads self.embedder and calls embed_query on it: with embedder None this
raises AttributeError (NoneType has no attribute embed_query). Otherwise line
252 reads self.vector_index, which __init__ never assigns (initAssignedAttrs),
so the read raises AttributeError. Either way no backend query is issued. -/
def vectorSearchTrace (cfg : DbConfig) (_query : String) :
    List BackendCall × Option PyError :=
  match cfg.embedder with
  | none => ([], some (PyError.attributeError "embed_query"))
  | some _ => ([], some (PyError.attributeError "vector_index"))

/-- Trace of _keyword_search (neo4j.py lines 279-292): no validation, one
backend call with query and limit bound. -/
def keywordSearchTrace (query : String) (limit : Int)
    (filters : List (String × String)) : List BackendCall × Option PyError :=
  ([⟨keywordCypher filters,
     [("query", ParamVal.str query), ("limit", ParamVal.int limit)]⟩], none)

/-- Trace of _hybrid_search (neo4j.py lines 294-316): with embedder None it
raises ValueError before any backend work; otherwise it embeds the query and
issues one backend call with query_embedding, query and limit bound. -/
def hybridSearchTrace (cfg : DbConfig) (query : String) (limit : Int)
    (filters : List (String × String)) : List BackendCall × Option PyError :=
  match cfg.embedder with
  | none => ([], some (PyError.valueError "Embedder is required for hybrid search"))
  | some emb =>
    ([⟨hybridCypher cfg.distance filters,
       [("query_embedding", ParamVal.vec (emb query)), ("query", ParamVal.str query),
        ("limit", ParamVal.int limit)]⟩], none)

/-- search (neo4j.py lines 169-188): no validation of limit or anything else;
direct dispatch on self.search_type to the three search paths. -/
def searchOp (cfg : DbConfig) (query : String) (limit : Int)
    (filters : List (String × String)) : List BackendCall × Option PyError :=
  match cfg.search_type with
  | SearchType.vector => vectorSearchTrace cfg query
  | SearchType.keyword => keywordSearchTrace query limit filters
  | SearchType.hybrid => hybridSearchTrace cfg query limit filters

/-- Ascending comparison on (node, similarity) rows, for ORDER BY distance in
the native fallback query (the value named distance there is the result of the
gds.similarity function). -/
def simLe (a b : Doc × ℚ) : Prop := a.2 ≤ b.2

instance : DecidableRel simLe := fun a b =>
  inferInstanceAs (Decidable (a.2 ≤ b.2))

/-- Descending comparison on (node, similarity) rows, for the spec-side vector
channel ranking (most similar first). -/
def simGe (a b : Doc × ℚ) : Prop := b.2 ≤ a.2

instance : DecidableRel simGe := fun a b =>
  inferInstanceAs (Decidable (b.2 ≤ a.2))

/-- Lexicographic ascending comparison on (node, keyword_match, vector_distance)
rows, for ORDER BY keyword_match, vector_distance in the hybrid query. -/
def kwSimLe (a b : Doc × Nat × ℚ) : Prop :=
  a.2.1 < b.2.1 ∨ (a.2.1 = b.2.1 ∧ a.2.2 ≤ b.2.2)

instance : DecidableRel kwSimLe := fun a b => by
  unfold kwSimLe
  infer_instance

/-- gds.similarity.manhattan of the GDS library (external to the repository),
modelled from the GDS documentation: the similarity 1 / (1 + sum of absolute
coordinate differences); like every gds.similarity function it returns a
similarity, so a higher value means more similar. -/
def manhattanSim (a b : List ℚ) : ℚ :=
  1 / (1 + (List.zipWith (fun x y => |x - y|) a b).sum)

/-- Backend evaluation of the native fallback query of _vector_search
(vectorNativeCypher), modelled from Cypher semantics: keep the rows satisfying
the WHERE conditions, compute simFn(embedding, query_embedding) AS distance
(simFn models the gds.similarity function named by distance_function), ORDER BY
that value ascending, LIMIT, and return each node with the value as its score. -/
def vectorNativeEval (simFn : List ℚ → List ℚ → ℚ) (store : List Doc)
    (qe : List ℚ) (limit : Nat) (filters : List (String × String)) :
    List (Doc × ℚ) :=
  (List.insertionSort simLe
    ((store.filter (filterPredSem filters)).map
      (fun d => (d, simFn d.embedding qe)))).take limit

/-- Backend evaluation of the hybrid query of _hybrid_search (hybridCypher),
modelled from Cypher semantics: keep the rows satisfying the WHERE conditions,
compute the similarity AS vector_distance and the CASE flag keyword_match (0
when content CONTAINS the query, else 1), ORDER BY keyword_match then
vector_distance ascending, LIMIT, and return the nodes. -/
def hybridEval (simFn : List ℚ → List ℚ → ℚ) (store : List Doc) (qe : List ℚ)
    (q : String) (filters : List (String × String)) (limit : Nat) : List Doc :=
  ((List.insertionSort kwSimLe
    ((store.filter (filterPredSem filters)).map
      (fun d => (d, (if strContainsStr d.content q then (0 : Nat) else 1),
                 simFn d.embedding qe)))).take limit).map (fun x => x.1)

/-- Modelled from the spec: the vector channel of hybrid retrieval — up to k
documents ranked by descending similarity (the spec convention that higher
score means more similar, section 4.2), restricted by the filter. -/
def vectorChannelIds (simFn : List ℚ → List ℚ → ℚ) (store : List Doc)
    (qe : List ℚ) (filters : List (String × String)) (k : Nat) : List String :=
  ((List.insertionSort simGe
    ((store.filter (filterPredSem filters)).map
      (fun d => (d, simFn d.embedding qe)))).take k).map (fun x => x.1.id)

/-- Modelled from the spec and _keyword_search: the keyword channel of hybrid
retrieval — up to k documents whose content contains the query, restricted by
the filter (the keyword query has no ORDER BY, so rows come in store order). -/
def keywordChannelIds (store : List Doc) (q : String)
    (filters : List (String × String)) (k : Nat) : List String :=
  ((store.filter (fun d => filterPredSem filters d && strContainsStr d.content q)).take k).map
    (fun d => d.id)

/-- Example document that contains the query word hit and is nearest to the
query embedding. -/
def docHit : Doc := ⟨"a", "A", "hit apple", "ha", [1/9]⟩

/-- Example document without the query word, second nearest to the query
embedding. -/
def docX : Doc := ⟨"x", "X", "xray", "hx", [1/4]⟩

/-- Example document without the query word, farthest from the query
embedding. -/
def docY : Doc := ⟨"y", "Y", "yak", "hy", [9]⟩

/-- Example document with embedding at the query point. -/
def docNear : Doc := ⟨"n", "N", "c", "h", [0]⟩

/-- Example document with embedding at manhattan distance 1 from the query
point. -/
def docFar : Doc := ⟨"f", "F", "c", "h", [1]⟩

/-- Example document for the duplicate-id scenario. -/
def dupDoc : Doc := ⟨"d1", "n", "c", "h", []⟩

/-- Configuration record of __init__ (neo4j.py lines 13-25). -/
structure InitConfig where
  database : String
  embedder : Option (String → List ℚ)
  search_type : SearchType
  vector_index : VectorIndexKind
  distance : Neo4jDistance
  schema_version : Int
  auto_upgrade_schema : Bool

/-- The message of the RuntimeError raised by _check_gds_availability
(neo4j.py line 359). -/
def gdsUnavailableMsg : String :=
  "Graph Data Science library is not available in Neo4j. Please install it."

/-- __init__ (neo4j.py lines 40-49): assigns the attributes of
initAssignedAttrs and then unconditionally calls _check_gds_availability
(lines 353-359), which runs the GDS probe and raises RuntimeError when the
probe reports the library absent; gdsAvailable is the probe result. The
configuration is not consulted before the probe. -/
def neo4jInit (_cfg : InitConfig) (gdsAvailable : Bool) :
    Except PyError (List String) :=
  if gdsAvailable then Except.ok initAssignedAttrs
  else Except.error (PyError.runtimeError gdsUnavailableMsg)

/-- C1: the claim says filter values are bound as query parameters and never
string-interpolated into the query text. The code does the opposite: at the
concrete filter tag = xval, _build_filter_conditions writes the value between
quotes directly into the condition string, the keyword-search query text
contains the value as a substring, and the only bound parameters of the issued
backend call are query and limit. -/
theorem filter_value_interpolated :
    build_filter_conditions [("tag", "xval")] = "d.tag = " ++ squote ++ "xval" ++ squote ∧
    strContainsStr (keywordCypher [("tag", "xval")]) "xval" = true ∧
    (searchOp ⟨none, SearchType.keyword, Neo4jDistance.cosine⟩ "find me" 5
        [("tag", "xval")]).1 =
      [⟨keywordCypher [("tag", "xval")],
        [("query", ParamVal.str "find me"), ("limit", ParamVal.int 5)]⟩] := by
  refine ⟨by decide, by decide, rfl⟩

/-- C2: the claim says the hybrid result is the reciprocal-rank-fusion ranking
of the vector and keyword channels and that a document absent from both
channels never appears. On the concrete corpus docHit, docX, docY with query
hit, query embedding [0], manhattan similarity and k = 2, the hybrid query
(ORDER BY keyword_match, vector_distance ascending) returns docY, although the
vector channel is [a, x] and the keyword channel is [a]: docY is absent from
both channels yet appears, and reciprocal-rank fusion (score 0 for docY) would
never rank it above docX. -/
theorem hybrid_returns_doc_absent_from_both_channels :
    hybridEval manhattanSim [docHit, docX, docY] [0] "hit" [] 2 = [docHit, docY] ∧
    vectorChannelIds manhattanSim [docHit, docX, docY] [0] [] 2 = ["a", "x"] ∧
    keywordChannelIds [docHit, docX, docY] "hit" [] 2 = ["a"] ∧
    docY.id ∉ vectorChannelIds manhattanSim [docHit, docX, docY] [0] [] 2 ∧
    docY.id ∉ keywordChannelIds [docHit, docX, docY] "hit" [] 2 := by
  have ha : strContainsStr "hit apple" "hit" = true := by decide
  have hx : strContainsStr "xray" "hit" = false := by decide
  have hy : strContainsStr "yak" "hit" = false := by decide
  have ma : manhattanSim [1/9] [0] = 9/10 := by norm_num [manhattanSim, abs_div]
  have mx : manhattanSim [1/4] [0] = 4/5 := by norm_num [manhattanSim, abs_div]
  have my : manhattanSim [9] [0] = 1/10 := by norm_num [manhattanSim, abs_div]
  have h2 : vectorChannelIds manhattanSim [docHit, docX, docY] [0] [] 2 = ["a", "x"] := by
    norm_num [vectorChannelIds, filterPredSem, List.insertionSort,
      List.orderedInsert, simGe, List.take, docHit, docX, docY, ma, mx, my]
  have h3 : keywordChannelIds [docHit, docX, docY] "hit" [] 2 = ["a"] := by
    simp [keywordChannelIds, filterPredSem, List.take, docHit, docX, docY, ha, hx, hy]
  refine ⟨?_, h2, h3, ?_, ?_⟩
  · norm_num [hybridEval, filterPredSem, List.insertionSort,
      List.orderedInsert, kwSimLe, List.take, docHit, docX, docY, ha, hx, hy, ma, mx, my]
  · rw [h2]; simp [docY]
  · rw [h3]; simp [docY]

/-- C3: the claim says vector-mode results are ordered with the most similar
document first (higher score = more similar, obtained by a monotonically
decreasing transform of distances). The native fallback query computes a
gds.similarity value (higher = more similar), applies no transform, orders by
it ASCENDING and returns it as the score: on the concrete corpus docNear
(similarity 1) and docFar (similarity 1/2) with limit 2 the first returned
document is docFar, the LEAST similar one, with the SMALLEST score. -/
theorem vector_search_returns_least_similar_first :
    vectorNativeEval manhattanSim [docNear, docFar] [0] 2 [] =
      [(docFar, 1/2), (docNear, 1)] ∧
    distance_function Neo4jDistance.manhattan = "gds.similarity.manhattan" := by
  refine ⟨?_, rfl⟩
  have mn : manhattanSim [0] [0] = 1 := by norm_num [manhattanSim, abs_div]
  have mf : manhattanSim [1] [0] = 1/2 := by norm_num [manhattanSim, abs_div]
  norm_num [vectorNativeEval, filterPredSem, List.insertionSort,
    List.orderedInsert, simLe, List.take, docNear, docFar, mn, mf]

/-- C4: the claim says a repeated create is an error-free no-op when the
constraint and index already exist. In the state where both exist, create
raises a backend error because the legacy CREATE CONSTRAINT statement has no
IF NOT EXISTS form (even granting the index attributes the constructor never
assigns); and on every real instance even the FIRST create call raises
AttributeError, because create_index reads the never-assigned
self.vector_index. -/
theorem create_not_idempotent :
    createOp (some VectorIndexKind.native) (some "Document") (some "embedding")
        ⟨true, true, []⟩ =
      Except.error (PyError.clientError "An equivalent constraint already exists") ∧
    createOp none none none ⟨false, false, []⟩ =
      Except.error (PyError.attributeError "vector_index") := ⟨rfl, rfl⟩

/-- C5: the claim says a second document with an existing id is replaced or
rejected and never yields two rows with that id. With no uniqueness constraint
active (create cannot install one, see C4/C9), inserting the same document
twice succeeds and leaves TWO rows with id d1; upsert, by contrast, keeps one
row. -/
theorem insert_allows_duplicate_ids :
    (insertOp ⟨false, false, []⟩ [dupDoc]).bind (fun st => insertOp st [dupDoc]) =
      Except.ok ⟨false, false, [dupDoc, dupDoc]⟩ ∧
    ([dupDoc, dupDoc].filter (fun d => d.id = dupDoc.id)).length = 2 ∧
    (upsertOp (upsertOp ⟨false, false, []⟩ [dupDoc]) [dupDoc]).docs = [dupDoc] := by
  refine ⟨rfl, by decide, rfl⟩

/-- C6 counterexample: at the concrete call with no embedder configured, the
error raised by vector-mode and by hybrid-mode search is not the
EmbeddingUnavailableError the claim names (that type does not exist in the
code). -/
theorem search_without_embedder_error_type_cex :
    (searchOp ⟨none, SearchType.vector, Neo4jDistance.cosine⟩ "q" 5 []).2 ≠
      some PyError.embeddingUnavailableError ∧
    (searchOp ⟨none, SearchType.hybrid, Neo4jDistance.cosine⟩ "q" 5 []).2 ≠
      some PyError.embeddingUnavailableError := by
  constructor <;> decide

/-- C6 amended: with no embedder configured, vector-mode search fails fast with
AttributeError (embed_query called on None) and hybrid-mode search fails fast
with ValueError, in both cases before any backend query is issued (the trace of
issued backend calls is empty); neither raises EmbeddingUnavailableError. -/
theorem search_without_embedder_fails_fast (d : Neo4jDistance) (q : String)
    (limit : Int) (filters : List (String × String)) :
    searchOp ⟨none, SearchType.vector, d⟩ q limit filters =
      ([], some (PyError.attributeError "embed_query")) ∧
    searchOp ⟨none, SearchType.hybrid, d⟩ q limit filters =
      ([], some (PyError.valueError "Embedder is required for hybrid search")) :=
  ⟨rfl, rfl⟩

/-- C7 counterexample: a keyword-mode search with limit 0 is not rejected — no
exception is raised, and the backend query is issued with 0 bound as the limit
parameter, contradicting the claimed synchronous InvalidArgumentError. -/
theorem keyword_search_limit_zero_not_rejected :
    searchOp ⟨none, SearchType.keyword, Neo4jDistance.cosine⟩ "q" 0 [] =
      ([⟨keywordCypher [], [("query", ParamVal.str "q"), ("limit", ParamVal.int 0)]⟩],
       none) := rfl

/-- C7 amended: search performs no limit validation at all — no call, in any
mode and at any limit, raises InvalidArgumentError (the type does not exist in
the code); in keyword mode the backend query is always issued with the given
limit, including limit at or below 0, forwarded unchanged as a bound
parameter. -/
theorem search_never_raises_invalid_argument (cfg : DbConfig) (q : String)
    (limit : Int) (filters : List (String × String)) :
    (searchOp cfg q limit filters).2 ≠ some PyError.invalidArgumentError ∧
    searchOp ⟨cfg.embedder, SearchType.keyword, cfg.distance⟩ q limit filters =
      ([⟨keywordCypher filters,
         [("query", ParamVal.str q), ("limit", ParamVal.int limit)]⟩], none) := by
  constructor
  · cases cfg with
    | mk e st d =>
      cases st <;> cases e <;>
        simp [searchOp, vectorSearchTrace, keywordSearchTrace, hybridSearchTrace]
  · rfl

/-- C8: an empty (or absent, Python None) filter mapping compiles to the
always-true condition 1=1, whose Cypher semantics keeps every document: the
candidate set is not restricted. -/
theorem empty_filter_matches_everything (store : List Doc) :
    build_filter_conditions [] = "1=1" ∧
    store.filter (fun d => filterPredSem [] d) = store := by
  refine ⟨rfl, ?_⟩
  induction store with
  | nil => rfl
  | cons d t ih =>
    simp [List.filter, filterPredSem, ih]

/-- C9: the claim says vector_index, label and property are assigned on the
instance so that create, create_index, drop_index and vector search can run.
In fact none of the three is among the attributes __init__ assigns, so
create_index and drop_index raise AttributeError at their first attribute read
on every instance, and vector search (with an embedder configured) raises
AttributeError at the isinstance check on self.vector_index before issuing any
backend query. -/
theorem index_attributes_never_assigned :
    initAssignedAttrs.contains "vector_index" = false ∧
    initAssignedAttrs.contains "label" = false ∧
    initAssignedAttrs.contains "property" = false ∧
    createIndexOp none none none ⟨false, false, []⟩ =
      Except.error (PyError.attributeError "vector_index") ∧
    dropIndexOp none none none ⟨false, true, []⟩ =
      Except.error (PyError.attributeError "vector_index") ∧
    (searchOp ⟨some (fun _ => [0]), SearchType.vector, Neo4jDistance.cosine⟩
        "q" 5 []).2 = some (PyError.attributeError "vector_index") := by
  refine ⟨by decide, by decide, by decide, rfl, rfl, rfl⟩

/-- C10: for every configuration — keyword-only and the native index variant
included — the constructor raises RuntimeError when the GDS availability probe
reports the library absent, so no instance (and hence no operation of the
store) is reachable without GDS. -/
theorem init_requires_gds_for_every_config (cfg : InitConfig) :
    neo4jInit cfg false = Except.error (PyError.runtimeError gdsUnavailableMsg) := rfl

end PhiNeo4j
